import Mathlib

/- Shallow embedding of the SSE session registry of mcp-server-kubernetes.
Two revisions are modelled: namespace SSE embeds src/utils/sse.ts (the
never-expire revision) and namespace SSEExp embeds the expiring revision.
Shared data model and the lookup/normalization code, which is identical in
both revisions, live in namespace Reg. -/

namespace Reg

/-- Opaque view of an SSEServerTransport: the SDK-assigned session id and the
fields the code inspects (handlePostMessage presence, the internal response
object and its destroyed flag). -/
structure Transport where
  sessionId : Option String
  hasHandler : Bool
  hasResponse : Bool
  responseDestroyed : Bool
deriving DecidableEq

/-- interface SessionInfo, identical in both revisions. -/
structure SessionInfo where
  transport : Transport
  sessionId : String
  lastActivity : Int
  isActive : Bool
  isReady : Bool
deriving DecidableEq

/-- Registry state. sessions embeds the insertion-ordered JS Map from keys to
record references; store holds the mutable record objects, so that two map
keys can alias one record exactly as in the source. -/
structure ServerState where
  sessions : List (String × Nat)
  store : List (Nat × SessionInfo)
  nextRef : Nat
deriving DecidableEq

/-- Map.get: first entry with the key (keys are unique in states built by the
map operations). -/
def mapGet (m : List (String × Nat)) (k : String) : Option Nat :=
  match m with
  | [] => none
  | (k', v) :: rest => if k' = k then some v else mapGet rest k

/-- Map.set: update in place if the key exists (JS Maps keep the original
position), append otherwise. -/
def mapSet (m : List (String × Nat)) (k : String) (v : Nat) : List (String × Nat) :=
  match m with
  | [] => [(k, v)]
  | (k', v') :: rest => if k' = k then (k, v) :: rest else (k', v') :: mapSet rest k v

/-- Map.delete: remove the entry with the key. -/
def mapDelete (m : List (String × Nat)) (k : String) : List (String × Nat) :=
  match m with
  | [] => []
  | (k', v') :: rest => if k' = k then rest else (k', v') :: mapDelete rest k

/-- Dereference a record. -/
def storeGet (m : List (Nat × SessionInfo)) (r : Nat) : Option SessionInfo :=
  match m with
  | [] => none
  | (r', s) :: rest => if r' = r then some s else storeGet rest r

/-- Overwrite (or add) a record. -/
def storeSet (m : List (Nat × SessionInfo)) (r : Nat) (s : SessionInfo) :
    List (Nat × SessionInfo) :=
  match m with
  | [] => [(r, s)]
  | (r', s') :: rest => if r' = r then (r, s) :: rest else (r', s') :: storeSet rest r s

/-- Mutate the record behind a reference, as JS field assignment does. -/
def updateRef (st : ServerState) (r : Nat) (f : SessionInfo → SessionInfo) : ServerState :=
  match storeGet st.store r with
  | some s => { st with store := storeSet st.store r (f s) }
  | none => st

/-- JS truthiness of an optional string: undefined and the empty string are
falsy. -/
def optTruthy (o : Option String) : Option String :=
  match o with
  | some s => if s = "" then none else some s
  | none => none

/-- Whether the first character list starts the second. -/
def leadsList : List Char → List Char → Bool
  | [], _ => true
  | _ :: _, [] => false
  | a :: as, b :: bs => a = b && leadsList as bs

/-- Whether the first character list occurs inside the second. -/
def infixList (needle : List Char) : List Char → Bool
  | [] => needle.isEmpty
  | h :: t => leadsList needle (h :: t) || infixList needle t

/-- String.prototype.includes. -/
def containsSub (hay needle : String) : Bool :=
  infixList needle.data hay.data

/-- new SSEServerTransport('/messages', res): a live transport whose SDK
session id is given. -/
def newTransport (sid : Option String) : Transport :=
  { sessionId := sid, hasHandler := true, hasResponse := true, responseDestroyed := false }

/-- Response bodies the handlers produce. -/
inductive Body where
  | text : String → Body
  | rpcError : Int → String → String → String → Body
  | fromTransport : Body
deriving DecidableEq

/-- An HTTP response; status is none when the transport itself answers. -/
structure Response where
  status : Option Nat
  body : Body
deriving DecidableEq

/-- Result of awaiting server.connect(transport). -/
inductive ConnectOutcome where
  | success
  | failure
deriving DecidableEq

/-- What transport.handlePostMessage does when invoked: returns, or throws a
value with the given instanceof-Error flag and message. -/
inductive ForwardOutcome where
  | ok
  | throwErr : Bool → String → ForwardOutcome
deriving DecidableEq

/-- Fallback 1 scan: first map entry whose record has sessionId = sid. -/
def findByField (store : List (Nat × SessionInfo)) (m : List (String × Nat))
    (sid : String) : Option (String × Nat) :=
  match m with
  | [] => none
  | (k, r) :: rest =>
    match storeGet store r with
    | some s => if s.sessionId = sid then some (k, r) else findByField store rest sid
    | none => findByField store rest sid

/-- Fallback 2 scan: first map entry whose record's transport reports sid. -/
def findByTransport (store : List (Nat × SessionInfo)) (m : List (String × Nat))
    (sid : String) : Option (String × Nat) :=
  match m with
  | [] => none
  | (k, r) :: rest =>
    match storeGet store r with
    | some s => if s.transport.sessionId = some sid then some (k, r)
                else findByTransport store rest sid
    | none => findByTransport store rest sid

/-- Self-healing index repair after a fallback hit: delete the stale key and
re-insert under the requested key. -/
def normalizeKey (st : ServerState) (sid : String) (hit : String × Nat) : ServerState :=
  if hit.1 ≠ sid then
    { st with sessions := mapSet (mapDelete st.sessions hit.1) sid hit.2 }
  else st

/-- The three-stage session resolution of POST /messages, identical in both
revisions: direct key, then the sessionId-field scan, then the
transport.sessionId scan, normalizing the index on a fallback hit. -/
def resolveSession (st : ServerState) (sid : String) : ServerState × Option Nat :=
  match mapGet st.sessions sid with
  | some r => (st, some r)
  | none =>
    match findByField st.store st.sessions sid with
    | some hit => (normalizeKey st sid hit, some hit.2)
    | none =>
      match findByTransport st.store st.sessions sid with
      | some hit => (normalizeKey st sid hit, some hit.2)
      | none => (st, none)

/-- Which stage of resolveSession finds the record. -/
inductive ResolveStage where
  | direct
  | byField
  | byTransport
  | notFound
deriving DecidableEq

/-- Classifier mirroring the stage structure of resolveSession. -/
def resolveStage (st : ServerState) (sid : String) : ResolveStage :=
  match mapGet st.sessions sid with
  | some _ => .direct
  | none =>
    match findByField st.store st.sessions sid with
    | some _ => .byField
    | none =>
      match findByTransport st.store st.sessions sid with
      | some _ => .byTransport
      | none => .notFound

end Reg

namespace SSE

open Reg

/-- isTransportAlive from src/utils/sse.ts: truthy transport with a
handlePostMessage function, a truthy internal response, not destroyed. -/
def isTransportAlive (t : Transport) : Bool :=
  t.hasHandler && (t.hasResponse && !t.responseDestroyed)

/-- What GET /sse has established by the time it suspends on server.connect:
the record reference, whether this was a resume, and the map key used. -/
structure OpenPrep where
  ref : Nat
  isResume : Bool
  key : String
deriving DecidableEq

/-- GET /sse up to the await of server.connect. A truthy requested id that is
found resumes the record (fresh transport, isActive true, lastActivity now);
otherwise a record keyed by the requested id, or by the generated
session_time_random id when none was requested, is inserted not-ready.
tSid is the SDK session id of any newly constructed transport. -/
def getSsePhase1 (st : ServerState) (requestedId : Option String) (freshId : String)
    (tSid : Option String) (now : Int) : ServerState × OpenPrep :=
  match optTruthy requestedId with
  | some rid =>
    match mapGet st.sessions rid with
    | some ref =>
      (updateRef st ref (fun s =>
        { s with transport := newTransport tSid, isActive := true, lastActivity := now }),
       { ref := ref, isResume := true, key := rid })
    | none =>
      let ref := st.nextRef
      let s : SessionInfo :=
        { transport := newTransport tSid, sessionId := rid, lastActivity := now,
          isActive := true, isReady := false }
      ({ sessions := mapSet st.sessions rid ref, store := storeSet st.store ref s,
         nextRef := ref + 1 },
       { ref := ref, isResume := false, key := rid })
  | none =>
    let ref := st.nextRef
    let s : SessionInfo :=
      { transport := newTransport tSid, sessionId := freshId, lastActivity := now,
        isActive := true, isReady := false }
    ({ sessions := mapSet st.sessions freshId ref, store := storeSet st.store ref s,
       nextRef := ref + 1 },
     { ref := ref, isResume := false, key := freshId })

/-- Result of the rest of GET /sse: the state, an error status if one was
sent, and the reference captured by the scheduled grace-delete closure. -/
structure OpenResult where
  state : ServerState
  errStatus : Option Nat
  graceTimer : Option Nat
deriving DecidableEq

/-- GET /sse from the connect guard on. Connect runs for a new session or a
not-ready resume. On success the record becomes ready; if the transport
reports a different id and this is not a resume, the record is re-keyed: the
map gains the real id, a delayed delete capturing sessionInfo (by reference)
is scheduled, and sessionInfo.sessionId is reassigned. On failure a 500 is
sent and the record kept. -/
def getSsePhase2 (st : ServerState) (prep : OpenPrep) (outcome : ConnectOutcome) :
    OpenResult :=
  match storeGet st.store prep.ref with
  | none => { state := st, errStatus := some 500, graceTimer := none }
  | some s =>
    if prep.isResume = false ∨ s.isReady = false then
      match outcome with
      | .failure => { state := st, errStatus := some 500, graceTimer := none }
      | .success =>
        let s1 := { s with isReady := true }
        let realId := (optTruthy s1.transport.sessionId).getD s1.sessionId
        if realId ≠ s1.sessionId ∧ prep.isResume = false then
          let s2 := { s1 with sessionId := realId }
          { state := { st with sessions := mapSet st.sessions realId prep.ref,
                               store := storeSet st.store prep.ref s2 },
            errStatus := none, graceTimer := some prep.ref }
        else
          { state := { st with store := storeSet st.store prep.ref s1 },
            errStatus := none, graceTimer := none }
    else { state := st, errStatus := none, graceTimer := none }

/-- The setTimeout body of the re-key grace: it deletes the map key equal to
sessionInfo.sessionId as read when the timer fires. -/
def fireGraceDelete (st : ServerState) (ref : Nat) : ServerState :=
  match storeGet st.store ref with
  | some s => { st with sessions := mapDelete st.sessions s.sessionId }
  | none => st

/-- The res.on('close') handler: sets sessionInfo.isActive to false. -/
def onClose (st : ServerState) (ref : Nat) : ServerState :=
  updateRef st ref (fun s => { s with isActive := false })

/-- POST /messages of the never-expire revision. -/
def postMessages (st : ServerState) (sessionId : Option String) (now : Int)
    (fw : ForwardOutcome) : ServerState × Response :=
  match optTruthy sessionId with
  | none => (st, { status := some 400, body := .text "Missing sessionId parameter" })
  | some sid =>
    match resolveSession st sid with
    | (st1, none) =>
      (st1, { status := some 404,
              body := .text "Session not found. Must establish SSE connection first." })
    | (st1, some ref) =>
      match storeGet st1.store ref with
      | none =>
        (st1, { status := some 404,
                body := .text "Session not found. Must establish SSE connection first." })
      | some s =>
        if s.isReady = false then
          (st1, { status := some 503,
                  body := .text "Session not ready. Please wait a moment and try again." })
        else
          let s1 := { s with lastActivity := now }
          let s2 := if s1.isActive = false then { s1 with isActive := true, lastActivity := now }
                    else s1
          if isTransportAlive s2.transport = false then
            let s3 := { s2 with isActive := false }
            ({ st1 with store := storeSet st1.store ref s3 },
             { status := some 410,
               body := .rpcError (-32000)
                 "Session exists but SSE connection is dead. Please reconnect."
                 sid (String.append "/sse?sessionId=" sid) })
          else
            match fw with
            | .ok =>
              ({ st1 with store := storeSet st1.store ref s2 },
               { status := none, body := .fromTransport })
            | .throwErr isErr msg =>
              if isErr = true ∧ containsSub msg "SSE connection not established" = true then
                let s3 := { s2 with isActive := false }
                ({ st1 with store := storeSet st1.store ref s3 },
                 { status := some 410,
                   body := .rpcError (-32000)
                     "SSE connection lost. Please reconnect to resume."
                     sid (String.append "/sse?sessionId=" sid) })
              else
                ({ st1 with store := storeSet st1.store ref s2 },
                 { status := some 500, body := .text "Internal server error" })

end SSE

namespace SSEExp

open Reg

/-- SESSION_TIMEOUT of the expiring revision: 5 minutes in milliseconds. -/
def SESSION_TIMEOUT : Int := 5 * 60 * 1000

/-- One tick of the setInterval cleanup: every map entry whose record has
now - lastActivity > SESSION_TIMEOUT is deleted. -/
def cleanupSweep (st : ServerState) (now : Int) : ServerState :=
  { st with sessions := st.sessions.filter (fun e =>
      match storeGet st.store e.2 with
      | some s => !(decide (now - s.lastActivity > SESSION_TIMEOUT))
      | none => true) }

/-- GET /sse of the expiring revision up to the await of server.connect: a
fresh record keyed by the generated temp id is inserted not-ready. -/
def getSsePhase1 (st : ServerState) (freshId : String) (tSid : Option String)
    (now : Int) : ServerState × Nat :=
  let ref := st.nextRef
  let s : SessionInfo :=
    { transport := newTransport tSid, sessionId := freshId, lastActivity := now,
      isActive := true, isReady := false }
  ({ sessions := mapSet st.sessions freshId ref, store := storeSet st.store ref s,
     nextRef := ref + 1 }, ref)

/-- Result of the rest of GET /sse: the state, an error status if one was
sent, and the temp key captured by value by the scheduled grace delete. -/
structure OpenResult where
  state : ServerState
  errStatus : Option Nat
  graceKey : Option String
deriving DecidableEq

/-- GET /sse of the expiring revision from the try block on. On success the
record becomes ready, is re-keyed under the transport's real id when that
differs (scheduling a delayed delete of tempSessionId, captured by value),
and sessionInfo.sessionId is set to the real id. On failure the temp key is
deleted and a 500 sent. -/
def getSsePhase2 (st : ServerState) (ref : Nat) (tempId : String)
    (outcome : ConnectOutcome) : OpenResult :=
  match outcome with
  | .failure =>
    { state := { st with sessions := mapDelete st.sessions tempId },
      errStatus := some 500, graceKey := none }
  | .success =>
    match storeGet st.store ref with
    | none => { state := st, errStatus := none, graceKey := none }
    | some s =>
      let s1 := { s with isReady := true }
      let realId := (optTruthy s1.transport.sessionId).getD tempId
      if realId ≠ tempId then
        { state := { st with sessions := mapSet st.sessions realId ref,
                             store := storeSet st.store ref { s1 with sessionId := realId } },
          errStatus := none, graceKey := some tempId }
      else
        { state := { st with store := storeSet st.store ref { s1 with sessionId := realId } },
          errStatus := none, graceKey := none }

/-- The setTimeout body of the re-key grace in the expiring revision: deletes
the temp key captured by value. -/
def fireGraceDelete (st : ServerState) (key : String) : ServerState :=
  { st with sessions := mapDelete st.sessions key }

/-- The res.on('close') handler of the expiring revision: resolves the session
through the map by the record's current id, falling back to the temp id, and
marks it inactive. -/
def onClose (st : ServerState) (ref : Nat) (tempId : String) : ServerState :=
  match storeGet st.store ref with
  | none => st
  | some sInfo =>
    let currentId := match optTruthy (some sInfo.sessionId) with
                     | some s => s
                     | none => tempId
    let found := match mapGet st.sessions currentId with
                 | some r => some r
                 | none => mapGet st.sessions tempId
    match found with
    | some r => updateRef st r (fun s => { s with isActive := false })
    | none => st

/-- POST /messages of the expiring revision: same resolution and precondition
checks, but inside the try block an invalid transport yields a plain 500 and
the catch block returns 500 for every exception. -/
def postMessages (st : ServerState) (sessionId : Option String) (now : Int)
    (fw : ForwardOutcome) : ServerState × Response :=
  match optTruthy sessionId with
  | none => (st, { status := some 400, body := .text "Missing sessionId parameter" })
  | some sid =>
    match resolveSession st sid with
    | (st1, none) =>
      (st1, { status := some 404,
              body := .text "Session not found. Must establish SSE connection first." })
    | (st1, some ref) =>
      match storeGet st1.store ref with
      | none =>
        (st1, { status := some 404,
                body := .text "Session not found. Must establish SSE connection first." })
      | some s =>
        if s.isReady = false then
          (st1, { status := some 503,
                  body := .text "Session not ready. Please wait a moment and try again." })
        else
          let s1 := { s with lastActivity := now }
          let s2 := if s1.isActive = false then { s1 with isActive := true } else s1
          if s2.transport.hasHandler = false then
            ({ st1 with store := storeSet st1.store ref s2 },
             { status := some 500, body := .text "Transport not properly initialized" })
          else
            match fw with
            | .ok =>
              ({ st1 with store := storeSet st1.store ref s2 },
               { status := none, body := .fromTransport })
            | .throwErr _ _ =>
              ({ st1 with store := storeSet st1.store ref s2 },
               { status := some 500, body := .text "Internal server error" })

end SSEExp

/-- The empty registry, as at server start. -/
def emptyState : Reg.ServerState := { sessions := [], store := [], nextRef := 0 }

/-- Never-expire revision: a stream-open with no requested id, provisional id
p1, SDK transport id d1, and a successful handshake; the re-key branch runs
and schedules the grace delete. -/
def rekeyRunNE : SSE.OpenResult :=
  SSE.getSsePhase2 (SSE.getSsePhase1 emptyState none "p1" (some "d1") 0).1
    (SSE.getSsePhase1 emptyState none "p1" (some "d1") 0).2 Reg.ConnectOutcome.success

/-- Expiring revision: the same stream-open (temp id p1, SDK id d1,
successful handshake). -/
def rekeyRunEX : SSEExp.OpenResult :=
  SSEExp.getSsePhase2 (SSEExp.getSsePhase1 emptyState "p1" (some "d1") 0).1
    (SSEExp.getSsePhase1 emptyState "p1" (some "d1") 0).2 "p1" Reg.ConnectOutcome.success

/-- A transport whose internal response has been destroyed: the liveness
probe fails on it. -/
def deadTransport : Reg.Transport :=
  { sessionId := some "d1", hasHandler := true, hasResponse := true, responseDestroyed := true }

/-- A live transport. -/
def liveTransport : Reg.Transport :=
  { sessionId := some "d1", hasHandler := true, hasResponse := true, responseDestroyed := false }

/-- A registry holding one ready, active record s1 whose transport is dead. -/
def deadSessionState : Reg.ServerState :=
  { sessions := [("s1", 0)],
    store := [(0, { transport := deadTransport, sessionId := "s1", lastActivity := 0,
                    isActive := true, isReady := true })],
    nextRef := 1 }

/-- A registry holding one ready, active record s1 whose transport is live. -/
def liveSessionState : Reg.ServerState :=
  { sessions := [("s1", 0)],
    store := [(0, { transport := liveTransport, sessionId := "s1", lastActivity := 0,
                    isActive := true, isReady := true })],
    nextRef := 1 }

/-- A single-record registry about to be resumed: key k maps to ref, whose
record still carries sessionId k and is not ready. -/
def resumeState (k : String) (ref n : Nat) (store : List (Nat × Reg.SessionInfo)) :
    Reg.ServerState :=
  { sessions := [(k, ref)], store := store, nextRef := n }

/-- Never-expire revision: a stream-open that resumes key k with a new
transport reporting id d, followed by a successful handshake. -/
def resumeRun (k fresh d : String) (ref n : Nat) (store : List (Nat × Reg.SessionInfo))
    (now : Int) : SSE.OpenResult :=
  SSE.getSsePhase2 (SSE.getSsePhase1 (resumeState k ref n store) (some k) fresh (some d) now).1
    (SSE.getSsePhase1 (resumeState k ref n store) (some k) fresh (some d) now).2
    Reg.ConnectOutcome.success

/-- Never-expire revision: a fresh stream-open whose handshake fails. -/
def failOpenNE (st : Reg.ServerState) (fresh : String) (tSid : Option String)
    (now : Int) : SSE.OpenResult :=
  SSE.getSsePhase2 (SSE.getSsePhase1 st none fresh tSid now).1
    (SSE.getSsePhase1 st none fresh tSid now).2 Reg.ConnectOutcome.failure

/-- Expiring revision: a fresh stream-open whose handshake fails. -/
def failOpenEX (st : Reg.ServerState) (fresh : String) (tSid : Option String)
    (now : Int) : SSEExp.OpenResult :=
  SSEExp.getSsePhase2 (SSEExp.getSsePhase1 st fresh tSid now).1
    (SSEExp.getSsePhase1 st fresh tSid now).2 fresh Reg.ConnectOutcome.failure

/-- A registry with one expired record a (idle since 0) and one fresh record
b (active at 500000), swept at now = 600000 against the 300000 ms timeout. -/
def sweepState : Reg.ServerState :=
  { sessions := [("a", 0), ("b", 1)],
    store := [(0, { transport := liveTransport, sessionId := "a", lastActivity := 0,
                    isActive := true, isReady := true }),
              (1, { transport := liveTransport, sessionId := "b", lastActivity := 500000,
                    isActive := true, isReady := true })],
    nextRef := 2 }

namespace Reg

theorem mapGet_mapSet_self (m : List (String × Nat)) (k : String) (v : Nat) :
    mapGet (mapSet m k v) k = some v := by
  induction m with
  | nil => simp [mapSet, mapGet]
  | cons e rest ih =>
    obtain ⟨k', v'⟩ := e
    by_cases h : k' = k
    · simp [mapSet, h, mapGet]
    · simp [mapSet, h, mapGet, ih]

theorem mapGet_mapSet_ne (m : List (String × Nat)) (k q : String) (v : Nat)
    (h : q ≠ k) : mapGet (mapSet m k v) q = mapGet m q := by
  have h' : ¬(k = q) := fun hh => h hh.symm
  induction m with
  | nil => simp [mapSet, mapGet, h']
  | cons e rest ih =>
    obtain ⟨k', v'⟩ := e
    by_cases hk : k' = k
    · subst hk
      simp [mapSet, mapGet, h']
    · by_cases hq : k' = q
      · subst hq
        simp [mapSet, hk, mapGet]
      · simp [mapSet, hk, mapGet, hq, ih]

theorem storeGet_storeSet_self (m : List (Nat × SessionInfo)) (r : Nat) (s : SessionInfo) :
    storeGet (storeSet m r s) r = some s := by
  induction m with
  | nil => simp [storeSet, storeGet]
  | cons e rest ih =>
    obtain ⟨r', s'⟩ := e
    by_cases h : r' = r
    · simp [storeSet, h, storeGet]
    · simp [storeSet, h, storeGet, ih]

theorem storeGet_storeSet_ne (m : List (Nat × SessionInfo)) (r q : Nat) (s : SessionInfo)
    (h : q ≠ r) : storeGet (storeSet m r s) q = storeGet m q := by
  have h' : ¬(r = q) := fun hh => h hh.symm
  induction m with
  | nil => simp [storeSet, storeGet, h']
  | cons e rest ih =>
    obtain ⟨r', s'⟩ := e
    by_cases hr : r' = r
    · subst hr
      simp [storeSet, storeGet, h']
    · by_cases hq : r' = q
      · subst hq
        simp [storeSet, hr, storeGet]
      · simp [storeSet, hr, storeGet, hq, ih]

theorem mapGet_of_not_mem_keys (m : List (String × Nat)) (k : String)
    (h : k ∉ m.map Prod.fst) : mapGet m k = none := by
  induction m with
  | nil => simp [mapGet]
  | cons e rest ih =>
    obtain ⟨k', v'⟩ := e
    simp only [List.map_cons, List.mem_cons] at h
    push_neg at h
    have h1 : ¬(k' = k) := fun hh => h.1 hh.symm
    simp [mapGet, h1, ih h.2]

theorem mapGet_filter_none (m : List (String × Nat)) (p : String × Nat → Bool)
    (k : String) (h : mapGet m k = none) : mapGet (m.filter p) k = none := by
  induction m with
  | nil => simp [mapGet]
  | cons e rest ih =>
    obtain ⟨k', v'⟩ := e
    by_cases hk : k' = k
    · simp [mapGet, hk] at h
    · simp only [mapGet, if_neg hk] at h
      by_cases hp : p (k', v')
      · simp [List.filter, hp, mapGet, hk, ih h]
      · simp [List.filter, hp, ih h]

theorem mapGet_filter_nodup (m : List (String × Nat)) (p : String × Nat → Bool)
    (k : String) (r : Nat) (hnd : (m.map Prod.fst).Nodup) (h : mapGet m k = some r) :
    mapGet (m.filter p) k = (if p (k, r) then some r else none) := by
  induction m with
  | nil => simp [mapGet] at h
  | cons e rest ih =>
    obtain ⟨k', v'⟩ := e
    simp only [List.map_cons, List.nodup_cons] at hnd
    by_cases hk : k' = k
    · subst hk
      have hv : v' = r := by simpa [mapGet] using h
      subst hv
      by_cases hp : p (k', v')
      · simp [List.filter, hp, mapGet]
      · have hrest : mapGet rest k' = none :=
          mapGet_of_not_mem_keys rest k' hnd.1
        simp [List.filter, hp, mapGet_filter_none rest p k' hrest]
    · simp only [mapGet, if_neg hk] at h
      by_cases hp : p (k', v')
      · simp [List.filter, hp, mapGet, hk, ih hnd.2 h]
      · simp [List.filter, hp, ih hnd.2 h]

theorem mapDelete_mapSet_of_absent (m : List (String × Nat)) (k : String) (v : Nat)
    (h : mapGet m k = none) : mapDelete (mapSet m k v) k = m := by
  induction m with
  | nil => simp [mapSet, mapDelete]
  | cons e rest ih =>
    obtain ⟨k', v'⟩ := e
    by_cases hk : k' = k
    · simp [mapGet, hk] at h
    · simp only [mapGet, if_neg hk] at h
      simp [mapSet, hk, mapDelete, ih h]

theorem findByField_none (store : List (Nat × SessionInfo)) (sid : String)
    (m : List (String × Nat))
    (h : ∀ e ∈ m, ∀ s, storeGet store e.2 = some s → s.sessionId ≠ sid) :
    findByField store m sid = none := by
  induction m with
  | nil => simp [findByField]
  | cons e rest ih =>
    obtain ⟨k, r⟩ := e
    have ihrest : findByField store rest sid = none :=
      ih (fun e he s hs => h e (List.mem_cons_of_mem _ he) s hs)
    cases hst : storeGet store r with
    | none => simpa [findByField, hst] using ihrest
    | some s =>
      have hne : s.sessionId ≠ sid := h (k, r) (List.mem_cons_self _ _) s hst
      simpa [findByField, hst, hne] using ihrest

theorem findByTransport_none (store : List (Nat × SessionInfo)) (sid : String)
    (m : List (String × Nat))
    (h : ∀ e ∈ m, ∀ s, storeGet store e.2 = some s → s.transport.sessionId ≠ some sid) :
    findByTransport store m sid = none := by
  induction m with
  | nil => simp [findByTransport]
  | cons e rest ih =>
    obtain ⟨k, r⟩ := e
    have ihrest : findByTransport store rest sid = none :=
      ih (fun e he s hs => h e (List.mem_cons_of_mem _ he) s hs)
    cases hst : storeGet store r with
    | none => simpa [findByTransport, hst] using ihrest
    | some s =>
      have hne : s.transport.sessionId ≠ some sid := h (k, r) (List.mem_cons_self _ _) s hst
      simpa [findByTransport, hst, hne] using ihrest

end Reg

/-- Claim C1. The claim is right and the never-expire revision is wrong: after
re-keying p1 to d1, both keys resolve during the grace window, but because the
scheduled delete reads sessionInfo.sessionId after it has been reassigned to
the durable id, firing the grace timer removes the durable key d1 and keeps
the provisional key p1, and a PostMessage on p1 five seconds after re-key
succeeds instead of returning 404. The expiring revision, which captures the
temp key by value, behaves as the claim states: p1 is removed and the same
PostMessage returns 404. -/
theorem c1_grace_delete_removes_durable_key :
    Reg.mapGet rekeyRunNE.state.sessions "p1" = some 0 ∧
    Reg.mapGet rekeyRunNE.state.sessions "d1" = some 0 ∧
    rekeyRunNE.graceTimer = some 0 ∧
    Reg.mapGet (SSE.fireGraceDelete rekeyRunNE.state 0).sessions "d1" = none ∧
    Reg.mapGet (SSE.fireGraceDelete rekeyRunNE.state 0).sessions "p1" = some 0 ∧
    (SSE.postMessages (SSE.fireGraceDelete rekeyRunNE.state 0) (some "p1") 5000
       Reg.ForwardOutcome.ok).2.status = none ∧
    rekeyRunEX.graceKey = some "p1" ∧
    Reg.mapGet (SSEExp.fireGraceDelete rekeyRunEX.state "p1").sessions "p1" = none ∧
    (SSEExp.postMessages (SSEExp.fireGraceDelete rekeyRunEX.state "p1") (some "p1") 5000
       Reg.ForwardOutcome.ok).2.status = some 404 :=
  ⟨rfl, rfl, rfl, rfl, rfl, rfl, rfl, rfl, rfl⟩

/-- Claim C2: in both revisions, the record created by a stream-open is
inserted into the session map under its provisional id by the time the
handler reaches the await of server.connect, so a lookup of that id in the
phase-1 state succeeds and returns the not-yet-ready record. -/
theorem c2_provisional_reachable_before_handshake (st stE : Reg.ServerState)
    (freshId : String) (tSid : Option String) (now : Int) :
    Reg.mapGet (SSE.getSsePhase1 st none freshId tSid now).1.sessions freshId
      = some st.nextRef ∧
    Reg.storeGet (SSE.getSsePhase1 st none freshId tSid now).1.store st.nextRef
      = some { transport := Reg.newTransport tSid, sessionId := freshId,
               lastActivity := now, isActive := true, isReady := false } ∧
    Reg.mapGet (SSEExp.getSsePhase1 stE freshId tSid now).1.sessions freshId
      = some stE.nextRef ∧
    Reg.storeGet (SSEExp.getSsePhase1 stE freshId tSid now).1.store stE.nextRef
      = some { transport := Reg.newTransport tSid, sessionId := freshId,
               lastActivity := now, isActive := true, isReady := false } := by
  refine ⟨?_, ?_, ?_, ?_⟩ <;>
    simp [SSE.getSsePhase1, SSEExp.getSsePhase1, Reg.optTruthy,
          Reg.mapGet_mapSet_self, Reg.storeGet_storeSet_self]

/-- Claim C3, counterexample: on a ready record with lastActivity 0 whose
transport fails the liveness probe, PostMessage at now = 100 returns 410, yet
the stored record's lastActivity has been refreshed to 100 — the dispatcher
refreshes lastActivity and auto-promotes before the liveness probe, contrary
to the claimed check order. -/
theorem c3_counterexample :
    (SSE.postMessages deadSessionState (some "s1") 100 Reg.ForwardOutcome.ok).2.status
      = some 410 ∧
    Reg.storeGet
      (SSE.postMessages deadSessionState (some "s1") 100 Reg.ForwardOutcome.ok).1.store 0
      = some { transport := deadTransport, sessionId := "s1", lastActivity := 100,
               isActive := false, isReady := true } ∧
    (100 : Int) ≠ (0 : Int) :=
  ⟨rfl, rfl, by decide⟩

/-- Claim C3 as amended: the dispatcher checks missing id, not found and not
ready in order, but refreshes lastActivity and promotes an Inactive record to
Active before the liveness probe; hence when PostMessage returns 410 because
the probe fails, the record ends with lastActivity refreshed to now and
isActive set to false. -/
theorem c3_amended_liveness_fail_after_refresh (st st1 : Reg.ServerState) (sid : String)
    (ref : Nat) (s : Reg.SessionInfo) (now : Int) (fw : Reg.ForwardOutcome)
    (hsid : sid ≠ "")
    (hres : Reg.resolveSession st sid = (st1, some ref))
    (hs : Reg.storeGet st1.store ref = some s)
    (hready : s.isReady = true)
    (hdead : SSE.isTransportAlive s.transport = false) :
    (SSE.postMessages st (some sid) now fw).2.status = some 410 ∧
    Reg.storeGet (SSE.postMessages st (some sid) now fw).1.store ref =
      some { s with lastActivity := now, isActive := false } := by
  cases hA : s.isActive <;>
    simp [SSE.postMessages, Reg.optTruthy, hsid, hres, hs, hready, hA, hdead,
          Reg.storeGet_storeSet_self]

/-- Claim C3 amended, witness at the concrete dead-transport registry. -/
theorem c3_amended_witness :
    (SSE.postMessages deadSessionState (some "s1") 100 Reg.ForwardOutcome.ok).2.status
      = some 410 :=
  (c3_amended_liveness_fail_after_refresh deadSessionState deadSessionState "s1" 0
    { transport := deadTransport, sessionId := "s1", lastActivity := 0,
      isActive := true, isReady := true }
    100 Reg.ForwardOutcome.ok (by decide) rfl rfl rfl rfl).1

/-- Claim C5: whenever PostMessage resolves a ready record whose transport
fails the liveness probe, the response is a 410 with the structured JSON-RPC
error body carrying the session id and a resume URL that contains that id,
and the dispatcher returns normally (postMessages is total and this branch
produces a response, not a fault). -/
theorem c5_dead_transport_error_payload (st st1 : Reg.ServerState) (sid : String)
    (ref : Nat) (s : Reg.SessionInfo) (now : Int) (fw : Reg.ForwardOutcome)
    (hsid : sid ≠ "")
    (hres : Reg.resolveSession st sid = (st1, some ref))
    (hs : Reg.storeGet st1.store ref = some s)
    (hready : s.isReady = true)
    (hdead : SSE.isTransportAlive s.transport = false) :
    (SSE.postMessages st (some sid) now fw).2 =
      { status := some 410,
        body := Reg.Body.rpcError (-32000)
          "Session exists but SSE connection is dead. Please reconnect."
          sid (String.append "/sse?sessionId=" sid) } ∧
    (∃ p, String.append "/sse?sessionId=" sid = String.append p sid) := by
  refine ⟨?_, ⟨"/sse?sessionId=", rfl⟩⟩
  cases hA : s.isActive <;>
    simp [SSE.postMessages, Reg.optTruthy, hsid, hres, hs, hready, hA, hdead]

/-- Claim C5, witness at the concrete dead-transport registry. -/
theorem c5_witness :
    (SSE.postMessages deadSessionState (some "s1") 100 Reg.ForwardOutcome.ok).2 =
      { status := some 410,
        body := Reg.Body.rpcError (-32000)
          "Session exists but SSE connection is dead. Please reconnect."
          "s1" (String.append "/sse?sessionId=" "s1") } :=
  (c5_dead_transport_error_payload deadSessionState deadSessionState "s1" 0
    { transport := deadTransport, sessionId := "s1", lastActivity := 0,
      isActive := true, isReady := true }
    100 Reg.ForwardOutcome.ok (by decide) rfl rfl rfl rfl).1

/-- Claim C4, counterexample: a stream-open on the empty registry with
requested id client-id (absent from the registry) creates the record under
the caller-supplied key client-id, not under the freshly generated
time+random composite — the claim that a fresh id is allocated rather than
reusing any caller-supplied id is false for the not-found case. -/
theorem c4_counterexample :
    (SSE.getSsePhase1 emptyState (some "client-id") "session_1700000000000_ab12cd34e"
       (some "u1") 0).1.sessions = [("client-id", 0)] ∧
    ("client-id" : String) ≠ "session_1700000000000_ab12cd34e" :=
  ⟨rfl, by decide⟩

/-- Claim C4 as amended: when no session id is requested, the stream-open
inserts the new record under the generated time+random id; when a requested
id is supplied but not found in the registry, the record is inserted under
the caller-supplied id itself; in both cases the record starts not-ready
(Pending). -/
theorem c4_amended_create_key_policy (st : Reg.ServerState) (rid freshId : String)
    (tSid : Option String) (now : Int)
    (hrid : rid ≠ "") (hnf : Reg.mapGet st.sessions rid = none) :
    (Reg.mapGet (SSE.getSsePhase1 st none freshId tSid now).1.sessions freshId
       = some st.nextRef ∧
     Reg.storeGet (SSE.getSsePhase1 st none freshId tSid now).1.store st.nextRef
       = some { transport := Reg.newTransport tSid, sessionId := freshId,
                lastActivity := now, isActive := true, isReady := false }) ∧
    (Reg.mapGet (SSE.getSsePhase1 st (some rid) freshId tSid now).1.sessions rid
       = some st.nextRef ∧
     Reg.storeGet (SSE.getSsePhase1 st (some rid) freshId tSid now).1.store st.nextRef
       = some { transport := Reg.newTransport tSid, sessionId := rid,
                lastActivity := now, isActive := true, isReady := false }) := by
  refine ⟨⟨?_, ?_⟩, ⟨?_, ?_⟩⟩ <;>
    simp [SSE.getSsePhase1, Reg.optTruthy, hrid, hnf,
          Reg.mapGet_mapSet_self, Reg.storeGet_storeSet_self]

/-- Claim C4 amended, witness: both branches at concrete inputs. -/
theorem c4_amended_witness :
    Reg.mapGet (SSE.getSsePhase1 emptyState (some "client-id") "session_9_zz"
       (some "u1") 0).1.sessions "client-id" = some 0 :=
  (c4_amended_create_key_policy emptyState "client-id" "session_9_zz" (some "u1") 0
    (by decide) rfl).2.1

/-- Claim C6, counterexample: in the expiring revision the catch block does
not classify forwarding exceptions: an Error whose message contains
"SSE connection not established" thrown by handlePostMessage yields a plain
500 and the record is left active, not demoted to Inactive with a 410. -/
theorem c6_counterexample :
    (SSEExp.postMessages liveSessionState (some "s1") 100
       (Reg.ForwardOutcome.throwErr true "Error: SSE connection not established")).2 =
      { status := some 500, body := Reg.Body.text "Internal server error" } ∧
    Reg.storeGet (SSEExp.postMessages liveSessionState (some "s1") 100
       (Reg.ForwardOutcome.throwErr true "Error: SSE connection not established")).1.store 0 =
      some { transport := liveTransport, sessionId := "s1", lastActivity := 100,
             isActive := true, isReady := true } ∧
    Reg.containsSub "Error: SSE connection not established"
      "SSE connection not established" = true :=
  ⟨rfl, rfl, by decide⟩

/-- Claim C6 as amended: only in the never-expire revision is a forwarding
exception classified: an Error whose message contains "SSE connection not
established" demotes the record to Inactive and yields a 410
DeadTransportError carrying the session id and resume URL, while any other
exception yields a 500 InternalError; in the expiring revision every
forwarding exception yields a 500. -/
theorem c6_amended_catch_classification (st st1 : Reg.ServerState) (sid : String)
    (ref : Nat) (s : Reg.SessionInfo) (now : Int)
    (hsid : sid ≠ "")
    (hres : Reg.resolveSession st sid = (st1, some ref))
    (hs : Reg.storeGet st1.store ref = some s)
    (hready : s.isReady = true)
    (halive : SSE.isTransportAlive s.transport = true) :
    (∀ msg, Reg.containsSub msg "SSE connection not established" = true →
       (SSE.postMessages st (some sid) now (Reg.ForwardOutcome.throwErr true msg)).2 =
         { status := some 410,
           body := Reg.Body.rpcError (-32000)
             "SSE connection lost. Please reconnect to resume."
             sid (String.append "/sse?sessionId=" sid) } ∧
       Reg.storeGet (SSE.postMessages st (some sid) now
           (Reg.ForwardOutcome.throwErr true msg)).1.store ref =
         some { s with lastActivity := now, isActive := false }) ∧
    (∀ isErr msg, ¬(isErr = true ∧ Reg.containsSub msg "SSE connection not established" = true) →
       (SSE.postMessages st (some sid) now (Reg.ForwardOutcome.throwErr isErr msg)).2 =
         { status := some 500, body := Reg.Body.text "Internal server error" } ∧
       Reg.storeGet (SSE.postMessages st (some sid) now
           (Reg.ForwardOutcome.throwErr isErr msg)).1.store ref =
         some { s with lastActivity := now, isActive := true }) := by
  constructor
  · intro msg hmsg
    cases hA : s.isActive <;>
      simp [SSE.postMessages, Reg.optTruthy, hsid, hres, hs, hready, hA, halive, hmsg,
            Reg.storeGet_storeSet_self]
  · intro isErr msg hnot
    cases hA : s.isActive <;>
      simp [SSE.postMessages, Reg.optTruthy, hsid, hres, hs, hready, hA, halive, hnot,
            Reg.storeGet_storeSet_self]

/-- Claim C6 amended, witness: both classification branches at concrete
inputs on the live-transport registry. -/
theorem c6_amended_witness :
    (SSE.postMessages liveSessionState (some "s1") 100
       (Reg.ForwardOutcome.throwErr true "Error: SSE connection not established")).2 =
      { status := some 410,
        body := Reg.Body.rpcError (-32000)
          "SSE connection lost. Please reconnect to resume."
          "s1" (String.append "/sse?sessionId=" "s1") } ∧
    (SSE.postMessages liveSessionState (some "s1") 100
       (Reg.ForwardOutcome.throwErr false "boom")).2 =
      { status := some 500, body := Reg.Body.text "Internal server error" } :=
  ⟨((c6_amended_catch_classification liveSessionState liveSessionState "s1" 0
      { transport := liveTransport, sessionId := "s1", lastActivity := 0,
        isActive := true, isReady := true }
      100 (by decide) rfl rfl rfl rfl).1
      "Error: SSE connection not established" (by decide)).1,
   ((c6_amended_catch_classification liveSessionState liveSessionState "s1" 0
      { transport := liveTransport, sessionId := "s1", lastActivity := 0,
        isActive := true, isReady := true }
      100 (by decide) rfl rfl rfl rfl).2
      false "boom" (by simp)).1⟩

/-- Claim C7: in both revisions the close handler only sets the record's
isActive flag to false: the session map and nextRef are untouched (so the
record stays present under all its keys), the updated record differs from
the old one only in isActive, and every other record in the store is
unchanged. The expiring revision's handler resolves the record through the
map by its current id first, so its record is assumed reachable there. -/
theorem c7_close_marks_inactive_only (st stE : Reg.ServerState) (ref refE : Nat)
    (s sE : Reg.SessionInfo) (tempId : String)
    (h : Reg.storeGet st.store ref = some s)
    (hE : Reg.storeGet stE.store refE = some sE)
    (hEsid : sE.sessionId ≠ "")
    (hEkey : Reg.mapGet stE.sessions sE.sessionId = some refE) :
    ((SSE.onClose st ref).sessions = st.sessions ∧
     (SSE.onClose st ref).nextRef = st.nextRef ∧
     Reg.storeGet (SSE.onClose st ref).store ref = some { s with isActive := false } ∧
     ∀ r, r ≠ ref → Reg.storeGet (SSE.onClose st ref).store r = Reg.storeGet st.store r) ∧
    ((SSEExp.onClose stE refE tempId).sessions = stE.sessions ∧
     (SSEExp.onClose stE refE tempId).nextRef = stE.nextRef ∧
     Reg.storeGet (SSEExp.onClose stE refE tempId).store refE =
       some { sE with isActive := false } ∧
     ∀ r, r ≠ refE →
       Reg.storeGet (SSEExp.onClose stE refE tempId).store r = Reg.storeGet stE.store r) := by
  refine ⟨⟨?_, ?_, ?_, ?_⟩, ⟨?_, ?_, ?_, ?_⟩⟩
  · simp [SSE.onClose, Reg.updateRef, h]
  · simp [SSE.onClose, Reg.updateRef, h]
  · simp [SSE.onClose, Reg.updateRef, h, Reg.storeGet_storeSet_self]
  · intro r hr
    simp [SSE.onClose, Reg.updateRef, h, Reg.storeGet_storeSet_ne _ _ _ _ hr]
  · simp [SSEExp.onClose, hE, Reg.optTruthy, hEsid, hEkey, Reg.updateRef]
  · simp [SSEExp.onClose, hE, Reg.optTruthy, hEsid, hEkey, Reg.updateRef]
  · simp [SSEExp.onClose, hE, Reg.optTruthy, hEsid, hEkey, Reg.updateRef,
          Reg.storeGet_storeSet_self]
  · intro r hr
    simp [SSEExp.onClose, hE, Reg.optTruthy, hEsid, hEkey, Reg.updateRef,
          Reg.storeGet_storeSet_ne _ _ _ _ hr]

/-- Claim C7, witness at the concrete live-transport registry. -/
theorem c7_witness :
    Reg.storeGet (SSE.onClose liveSessionState 0).store 0 =
      some { transport := liveTransport, sessionId := "s1", lastActivity := 0,
             isActive := false, isReady := true } ∧
    Reg.storeGet (SSEExp.onClose liveSessionState 0 "tmp").store 0 =
      some { transport := liveTransport, sessionId := "s1", lastActivity := 0,
             isActive := false, isReady := true } :=
  ⟨((c7_close_marks_inactive_only liveSessionState liveSessionState 0 0
      { transport := liveTransport, sessionId := "s1", lastActivity := 0,
        isActive := true, isReady := true }
      { transport := liveTransport, sessionId := "s1", lastActivity := 0,
        isActive := true, isReady := true }
      "tmp" rfl rfl (by decide) rfl).1.2.2.1),
   ((c7_close_marks_inactive_only liveSessionState liveSessionState 0 0
      { transport := liveTransport, sessionId := "s1", lastActivity := 0,
        isActive := true, isReady := true }
      { transport := liveTransport, sessionId := "s1", lastActivity := 0,
        isActive := true, isReady := true }
      "tmp" rfl rfl (by decide) rfl).2.2.2.1)⟩

/-- Claim C8: one tick of the expiring revision's cleanup sweep removes from
the session map exactly the keys whose record has now - lastActivity
strictly above SESSION_TIMEOUT; a key whose record is at or below the
timeout still maps to the same reference, and the store (hence every
surviving record) and nextRef are unchanged. -/
theorem c8_sweep_expiry (st : Reg.ServerState) (now : Int) (k : String) (r : Nat)
    (s : Reg.SessionInfo)
    (hnd : (st.sessions.map Prod.fst).Nodup)
    (hk : Reg.mapGet st.sessions k = some r)
    (hs : Reg.storeGet st.store r = some s) :
    (now - s.lastActivity > SSEExp.SESSION_TIMEOUT →
       Reg.mapGet (SSEExp.cleanupSweep st now).sessions k = none) ∧
    (¬(now - s.lastActivity > SSEExp.SESSION_TIMEOUT) →
       Reg.mapGet (SSEExp.cleanupSweep st now).sessions k = some r) ∧
    (SSEExp.cleanupSweep st now).store = st.store ∧
    (SSEExp.cleanupSweep st now).nextRef = st.nextRef := by
  have hfilter := Reg.mapGet_filter_nodup st.sessions
    (fun e => match Reg.storeGet st.store e.2 with
              | some s => !(decide (now - s.lastActivity > SSEExp.SESSION_TIMEOUT))
              | none => true) k r hnd hk
  refine ⟨?_, ?_, rfl, rfl⟩
  · intro hgt
    show Reg.mapGet (st.sessions.filter _) k = none
    rw [hfilter]
    simp [hs, hgt]
  · intro hle
    show Reg.mapGet (st.sessions.filter _) k = some r
    rw [hfilter]
    simp [hs, hle]

/-- Claim C8, witness: in the two-record registry swept at now = 600000, the
idle record a (600000 ms since activity) is gone and the fresh record b
(100000 ms) survives with the store intact. -/
theorem c8_witness :
    Reg.mapGet (SSEExp.cleanupSweep sweepState 600000).sessions "a" = none ∧
    Reg.mapGet (SSEExp.cleanupSweep sweepState 600000).sessions "b" = some 1 ∧
    (SSEExp.cleanupSweep sweepState 600000).store = sweepState.store :=
  ⟨(c8_sweep_expiry sweepState 600000 "a" 0
      { transport := liveTransport, sessionId := "a", lastActivity := 0,
        isActive := true, isReady := true }
      (by decide) rfl rfl).1 (by decide),
   (c8_sweep_expiry sweepState 600000 "b" 1
      { transport := liveTransport, sessionId := "b", lastActivity := 500000,
        isActive := true, isReady := true }
      (by decide) rfl rfl).2.1 (by decide),
   (c8_sweep_expiry sweepState 600000 "a" 0
      { transport := liveTransport, sessionId := "a", lastActivity := 0,
        isActive := true, isReady := true }
      (by decide) rfl rfl).2.2.1⟩

/-- Claim C9: in the never-expire revision, resuming a not-yet-ready record
keyed k with a new transport whose SDK id is d ≠ k leaves the registry
un-re-keyed after the successful handshake: the map still holds only the old
key k, the record's sessionId field is still k, no grace delete is scheduled,
a direct lookup of d misses, and a PostMessage using d can resolve the record
only through the transport.sessionId fallback scan. -/
theorem c9_resume_skips_rekey (k d fresh : String) (ref n : Nat)
    (store : List (Nat × Reg.SessionInfo)) (s : Reg.SessionInfo) (now : Int)
    (hk : k ≠ "") (hd : d ≠ "") (hdk : d ≠ k)
    (hs : Reg.storeGet store ref = some s)
    (hsid : s.sessionId = k) (hnr : s.isReady = false) :
    (resumeRun k fresh d ref n store now).state.sessions = [(k, ref)] ∧
    Reg.storeGet (resumeRun k fresh d ref n store now).state.store ref =
      some { transport := Reg.newTransport (some d), sessionId := k,
             lastActivity := now, isActive := true, isReady := true } ∧
    (resumeRun k fresh d ref n store now).graceTimer = none ∧
    Reg.mapGet (resumeRun k fresh d ref n store now).state.sessions d = none ∧
    Reg.resolveStage (resumeRun k fresh d ref n store now).state d =
      Reg.ResolveStage.byTransport := by
  have hkd' : ¬(k = d) := fun hh => hdk hh.symm
  refine ⟨?_, ?_, ?_, ?_, ?_⟩ <;>
    simp [resumeRun, resumeState, SSE.getSsePhase1, SSE.getSsePhase2, Reg.optTruthy,
          hk, hd, hkd', Reg.mapGet, Reg.updateRef, hs, hsid, hnr,
          Reg.storeGet_storeSet_self, Reg.resolveStage, Reg.findByField,
          Reg.findByTransport, Reg.newTransport]

/-- Claim C9, witness: concrete resume of p1 with durable transport id d1. -/
theorem c9_witness :
    (resumeRun "p1" "f" "d1" 0 1
      [(0, { transport := Reg.newTransport none, sessionId := "p1", lastActivity := 0,
             isActive := false, isReady := false })] 10).state.sessions = [("p1", 0)] ∧
    Reg.resolveStage (resumeRun "p1" "f" "d1" 0 1
      [(0, { transport := Reg.newTransport none, sessionId := "p1", lastActivity := 0,
             isActive := false, isReady := false })] 10).state "d1" =
      Reg.ResolveStage.byTransport :=
  ⟨(c9_resume_skips_rekey "p1" "d1" "f" 0 1
      [(0, { transport := Reg.newTransport none, sessionId := "p1", lastActivity := 0,
             isActive := false, isReady := false })]
      { transport := Reg.newTransport none, sessionId := "p1", lastActivity := 0,
        isActive := false, isReady := false }
      10 (by decide) (by decide) (by decide) rfl rfl rfl).1,
   (c9_resume_skips_rekey "p1" "d1" "f" 0 1
      [(0, { transport := Reg.newTransport none, sessionId := "p1", lastActivity := 0,
             isActive := false, isReady := false })]
      { transport := Reg.newTransport none, sessionId := "p1", lastActivity := 0,
        isActive := false, isReady := false }
      10 (by decide) (by decide) (by decide) rfl rfl rfl).2.2.2.2⟩

/-- Claim C10: when server.connect rejects during a fresh stream-open, the
never-expire revision sends a 500 but keeps the record, still not ready, so a
subsequent PostMessage with that id returns 503; the expiring revision
deletes the record on the same failure, so the subsequent PostMessage
returns 404 (given that the fresh id matches no other key, record id or
transport id in the registry). -/
theorem c10_connect_failure_policy (st stE : Reg.ServerState) (fresh freshE : String)
    (tSid tSidE : Option String) (now now2 : Int) (fw : Reg.ForwardOutcome)
    (hfresh : fresh ≠ "") (hfreshE : freshE ≠ "")
    (h1 : Reg.mapGet stE.sessions freshE = none)
    (h2 : ∀ e ∈ stE.sessions, e.2 ≠ stE.nextRef)
    (h3 : ∀ e ∈ stE.sessions, ∀ s, Reg.storeGet stE.store e.2 = some s →
            s.sessionId ≠ freshE)
    (h4 : ∀ e ∈ stE.sessions, ∀ s, Reg.storeGet stE.store e.2 = some s →
            s.transport.sessionId ≠ some freshE) :
    (failOpenNE st fresh tSid now).errStatus = some 500 ∧
    Reg.mapGet (failOpenNE st fresh tSid now).state.sessions fresh = some st.nextRef ∧
    Reg.storeGet (failOpenNE st fresh tSid now).state.store st.nextRef =
      some { transport := Reg.newTransport tSid, sessionId := fresh,
             lastActivity := now, isActive := true, isReady := false } ∧
    (SSE.postMessages (failOpenNE st fresh tSid now).state (some fresh) now2 fw).2.status
      = some 503 ∧
    (failOpenEX stE freshE tSidE now).errStatus = some 500 ∧
    Reg.mapGet (failOpenEX stE freshE tSidE now).state.sessions freshE = none ∧
    (SSEExp.postMessages (failOpenEX stE freshE tSidE now).state (some freshE) now2 fw).2.status
      = some 404 := by
  have hsess : (failOpenEX stE freshE tSidE now).state.sessions = stE.sessions := by
    simp [failOpenEX, SSEExp.getSsePhase1, SSEExp.getSsePhase2,
          Reg.mapDelete_mapSet_of_absent _ _ _ h1]
  have hstore : (failOpenEX stE freshE tSidE now).state.store =
      Reg.storeSet stE.store stE.nextRef
        { transport := Reg.newTransport tSidE, sessionId := freshE,
          lastActivity := now, isActive := true, isReady := false } := by
    simp [failOpenEX, SSEExp.getSsePhase1, SSEExp.getSsePhase2]
  have hff : Reg.findByField (failOpenEX stE freshE tSidE now).state.store
      (failOpenEX stE freshE tSidE now).state.sessions freshE = none := by
    rw [hsess, hstore]
    refine Reg.findByField_none _ _ _ (fun e he s hsg => h3 e he s ?_)
    rwa [Reg.storeGet_storeSet_ne _ _ _ _ (h2 e he)] at hsg
  have hft : Reg.findByTransport (failOpenEX stE freshE tSidE now).state.store
      (failOpenEX stE freshE tSidE now).state.sessions freshE = none := by
    rw [hsess, hstore]
    refine Reg.findByTransport_none _ _ _ (fun e he s hsg => h4 e he s ?_)
    rwa [Reg.storeGet_storeSet_ne _ _ _ _ (h2 e he)] at hsg
  have hget : Reg.mapGet (failOpenEX stE freshE tSidE now).state.sessions freshE = none := by
    rw [hsess]; exact h1
  have hres : Reg.resolveSession (failOpenEX stE freshE tSidE now).state freshE =
      ((failOpenEX stE freshE tSidE now).state, none) := by
    simp [Reg.resolveSession, hget, hff, hft]
  refine ⟨?_, ?_, ?_, ?_, ?_, hget, ?_⟩
  · simp [failOpenNE, SSE.getSsePhase1, SSE.getSsePhase2, Reg.optTruthy,
          Reg.storeGet_storeSet_self]
  · simp [failOpenNE, SSE.getSsePhase1, SSE.getSsePhase2, Reg.optTruthy,
          Reg.storeGet_storeSet_self, Reg.mapGet_mapSet_self]
  · simp [failOpenNE, SSE.getSsePhase1, SSE.getSsePhase2, Reg.optTruthy,
          Reg.storeGet_storeSet_self]
  · simp [failOpenNE, SSE.getSsePhase1, SSE.getSsePhase2, Reg.optTruthy, hfresh,
          SSE.postMessages, Reg.resolveSession, Reg.mapGet_mapSet_self,
          Reg.storeGet_storeSet_self]
  · simp [failOpenEX, SSEExp.getSsePhase1, SSEExp.getSsePhase2]
  · simp [SSEExp.postMessages, Reg.optTruthy, hfreshE, hres]

/-- Claim C10, witness: concrete failed opens from the empty registry. -/
theorem c10_witness :
    (SSE.postMessages (failOpenNE emptyState "p1" (some "d1") 0).state (some "p1") 50
       Reg.ForwardOutcome.ok).2.status = some 503 ∧
    (SSEExp.postMessages (failOpenEX emptyState "p1" (some "d1") 0).state (some "p1") 50
       Reg.ForwardOutcome.ok).2.status = some 404 :=
  ⟨(c10_connect_failure_policy emptyState emptyState "p1" "p1" (some "d1") (some "d1")
      0 50 Reg.ForwardOutcome.ok (by decide) (by decide) rfl
      (by intro e he; simp [emptyState] at he) (by intro e he; simp [emptyState] at he)
      (by intro e he; simp [emptyState] at he)).2.2.2.1,
   (c10_connect_failure_policy emptyState emptyState "p1" "p1" (some "d1") (some "d1")
      0 50 Reg.ForwardOutcome.ok (by decide) (by decide) rfl
      (by intro e he; simp [emptyState] at he) (by intro e he; simp [emptyState] at he)
      (by intro e he; simp [emptyState] at he)).2.2.2.2.2.2⟩
